import Mathlib

/-!
Shallow embedding of the hopus-ai/meet recording and token logic.

The TypeScript sources embedded here are:
* `src/lib/livekit-jwt.ts` / `src/unnamed/part_000` — LiveKit JWT issue/verify;
* `src/lib/livekit-egress.ts` — egress client helpers (`isEgressActive`,
  `checkRecordingPermission`, response mapping);
* `src/app/api/record/start/route.ts` — the start-recording route handler;
* `src/unnamed/part_002` — the stop-recording route handler;
* `src/lib/SettingsMenu.tsx` — the optimistic recording-state reconciler.

Remote I/O (fetch calls to the LiveKit server) is modelled by passing the
remote results in as explicit inputs and recording the outbound calls the
handler issues as an explicit list, so that "does not issue a call" is a
statement about that list.
-/

namespace Meet

/-! ## JSON values and a model of `JSON.parse`

The permission check does `JSON.parse(participant.metadata)` and then reads
`metadata.canRecord === true`, catching any parse error.  We model JSON.parse
as a fuel-bounded recursive-descent parser over the character list of the
input, returning `none` where `JSON.parse` would throw. -/

/-- JSON values as produced by a successful `JSON.parse`.  Numeric literals
keep their lexeme: the code under analysis never uses the numeric value. -/
inductive Json where
  | null : Json
  | bool (b : Bool) : Json
  | num (lexeme : String) : Json
  | str (s : String) : Json
  | arr (items : List Json) : Json
  | obj (members : List (String × Json)) : Json

/-- JSON whitespace characters (space, tab, line feed, carriage return). -/
def isJsonWs (c : Char) : Bool :=
  c = ' ' || c = '\t' || c = '\n' || c = '\r'

/-- Drop leading JSON whitespace. -/
def skipWs : List Char → List Char
  | [] => []
  | c :: rest => if isJsonWs c then skipWs rest else c :: rest

/-- Decode one hexadecimal digit. -/
def hexDigit? (c : Char) : Option Nat :=
  if '0' ≤ c ∧ c ≤ '9' then some (c.toNat - '0'.toNat)
  else if 'a' ≤ c ∧ c ≤ 'f' then some (c.toNat - 'a'.toNat + 10)
  else if 'A' ≤ c ∧ c ≤ 'F' then some (c.toNat - 'A'.toNat + 10)
  else none

/-- Decode a single-character escape sequence of a JSON string literal. -/
def decodeEscape (e : Char) : Option Char :=
  if e = '"' then some '"'
  else if e = '\\' then some '\\'
  else if e = '/' then some '/'
  else if e = 'b' then some '\x08'
  else if e = 'f' then some '\x0c'
  else if e = 'n' then some '\n'
  else if e = 'r' then some '\r'
  else if e = 't' then some '\t'
  else none

/-- Parse the body of a JSON string literal after the opening quote, handling
the escape sequences accepted by `JSON.parse`.  Control characters below
U+0020 are rejected, as in the JSON grammar. -/
def parseStringBody : List Char → Option (List Char × List Char)
  | [] => none
  | c :: rest =>
    if c = '"' then some ([], rest)
    else if c = '\\' then
      match rest with
      | [] => none
      | 'u' :: h1 :: h2 :: h3 :: h4 :: rest3 =>
        match hexDigit? h1, hexDigit? h2, hexDigit? h3, hexDigit? h4 with
        | some d1, some d2, some d3, some d4 =>
          match parseStringBody rest3 with
          | some (cs, rem) =>
            some (Char.ofNat (((d1 * 16 + d2) * 16 + d3) * 16 + d4) :: cs, rem)
          | none => none
        | _, _, _, _ => none
      | e :: rest2 =>
        match decodeEscape e with
        | none => none
        | some ch =>
          match parseStringBody rest2 with
          | some (cs, rem) => some (ch :: cs, rem)
          | none => none
    else if c.toNat < 0x20 then none
    else
      match parseStringBody rest with
      | some (cs, rem) => some (c :: cs, rem)
      | none => none

/-- Take a maximal run of decimal digits. -/
def takeDigits : List Char → List Char × List Char
  | [] => ([], [])
  | c :: rest =>
    if c.isDigit then
      let (ds, rem) := takeDigits rest
      (c :: ds, rem)
    else ([], c :: rest)

/-- Parse the integer part of a JSON number: `0`, or a nonzero digit followed
by digits (leading zeros are rejected, as in the JSON grammar). -/
def parseIntPart : List Char → Option (List Char × List Char)
  | [] => none
  | c :: rest =>
    if c = '0' then some ([c], rest)
    else if c.isDigit then
      let (ds, rem) := takeDigits rest
      some (c :: ds, rem)
    else none

/-- Parse an optional fraction part (`.` followed by one or more digits). -/
def parseFracPart : List Char → Option (List Char × List Char)
  | [] => some ([], [])
  | c :: rest =>
    if c = '.' then
      match takeDigits rest with
      | ([], _) => none
      | (ds, rem) => some (c :: ds, rem)
    else some ([], c :: rest)

/-- Parse an optional exponent part (`e`/`E`, optional sign, digits). -/
def parseExpPart : List Char → Option (List Char × List Char)
  | [] => some ([], [])
  | c :: rest =>
    if c = 'e' ∨ c = 'E' then
      match rest with
      | [] => none
      | s :: rest2 =>
        if s = '+' ∨ s = '-' then
          match takeDigits rest2 with
          | ([], _) => none
          | (ds, rem) => some (c :: s :: ds, rem)
        else
          match takeDigits rest with
          | ([], _) => none
          | (ds, rem) => some (c :: ds, rem)
    else some ([], c :: rest)

/-- Parse a JSON number starting at the given characters. -/
def parseNumber (cs : List Char) : Option (List Char × List Char) :=
  let (sign, cs1) :=
    match cs with
    | '-' :: rest => (['-'], rest)
    | _ => (([] : List Char), cs)
  match parseIntPart cs1 with
  | none => none
  | some (ip, cs2) =>
    match parseFracPart cs2 with
    | none => none
    | some (fp, cs3) =>
      match parseExpPart cs3 with
      | none => none
      | some (ep, cs4) => some (sign ++ ip ++ fp ++ ep, cs4)

/-- Check that a literal keyword is a prefix of the input and return the rest. -/
def dropKeyword : List Char → List Char → Option (List Char)
  | [], cs => some cs
  | k :: ks, c :: cs => if c = k then dropKeyword ks cs else none
  | _ :: _, [] => none

mutual

/-- Parse one JSON value (fuel-bounded; the fuel only needs to exceed the
nesting depth of the input, which is bounded by its length). -/
def parseValue : Nat → List Char → Option (Json × List Char)
  | 0, _ => none
  | _ + 1, [] => none
  | fuel + 1, c :: cs =>
    if c = '"' then
      match parseStringBody cs with
      | some (body, rem) => some (.str (String.mk body), rem)
      | none => none
    else if c = '[' then
      match skipWs cs with
      | ']' :: rem => some (.arr [], rem)
      | cs' =>
        match parseItems fuel cs' with
        | some (items, rem) => some (.arr items, rem)
        | none => none
    else if c = '{' then
      match skipWs cs with
      | '}' :: rem => some (.obj [], rem)
      | cs' =>
        match parseMembers fuel cs' with
        | some (members, rem) => some (.obj members, rem)
        | none => none
    else if c = 't' then
      match dropKeyword ['r', 'u', 'e'] cs with
      | some rem => some (.bool true, rem)
      | none => none
    else if c = 'f' then
      match dropKeyword ['a', 'l', 's', 'e'] cs with
      | some rem => some (.bool false, rem)
      | none => none
    else if c = 'n' then
      match dropKeyword ['u', 'l', 'l'] cs with
      | some rem => some (.null, rem)
      | none => none
    else
      match parseNumber (c :: cs) with
      | some (lex, rem) => some (.num (String.mk lex), rem)
      | none => none

/-- Parse the comma-separated items of a non-empty JSON array, consuming the
closing bracket. -/
def parseItems : Nat → List Char → Option (List Json × List Char)
  | 0, _ => none
  | fuel + 1, cs =>
    match parseValue fuel cs with
    | none => none
    | some (v, rem) =>
      match skipWs rem with
      | ',' :: rem2 =>
        match parseItems fuel (skipWs rem2) with
        | some (vs, rem3) => some (v :: vs, rem3)
        | none => none
      | ']' :: rem2 => some ([v], rem2)
      | _ => none

/-- Parse the comma-separated members of a non-empty JSON object, consuming
the closing brace. -/
def parseMembers : Nat → List Char → Option (List (String × Json) × List Char)
  | 0, _ => none
  | fuel + 1, cs =>
    match cs with
    | '"' :: cs1 =>
      match parseStringBody cs1 with
      | none => none
      | some (key, rem) =>
        match skipWs rem with
        | ':' :: rem2 =>
          match parseValue fuel (skipWs rem2) with
          | none => none
          | some (v, rem3) =>
            match skipWs rem3 with
            | ',' :: rem4 =>
              match parseMembers fuel (skipWs rem4) with
              | some (ms, rem5) => some ((String.mk key, v) :: ms, rem5)
              | none => none
            | '}' :: rem4 => some ([(String.mk key, v)], rem4)
            | _ => none
        | _ => none
    | _ => none

end

/-- Model of JavaScript `JSON.parse`: parse a complete JSON text with
optional surrounding whitespace; `none` models a thrown `SyntaxError`. -/
def jsonParse (s : String) : Option Json :=
  match parseValue (s.length + 2) (skipWs s.data) with
  | some (v, rem) =>
    match skipWs rem with
    | [] => some v
    | _ :: _ => none
  | none => none

/-- Look up an object member.  `JSON.parse` keeps the last of duplicate keys,
so the search runs over the reversed member list. -/
def lookupMember (members : List (String × Json)) (key : String) : Option Json :=
  (members.reverse.find? (fun kv => kv.fst == key)).map (fun kv => kv.snd)

/-- Model of `parsed.canRecord === true` on the result of `JSON.parse`.
Property access on a non-object yields `undefined` (or throws on `null`,
which the surrounding `catch` turns into `false` as well), so only an object
with a `canRecord` member equal to boolean `true` yields `true`. -/
def canRecordTrue : Json → Bool
  | .obj members =>
    match lookupMember members "canRecord" with
    | some (.bool true) => true
    | _ => false
  | _ => false

/-! ## Participant records and the recording-permission check -/

/-- Participant info as mapped from the LiveKit Room API response
(`ParticipantInfo` in `src/lib/livekit-egress.ts`).  `metadata` is `Option`
because the JSON field may be absent (`undefined`) at runtime. -/
structure ParticipantInfo where
  sid : String
  identity : String
  name : String
  metadata : Option String
  state : Nat
deriving DecidableEq

/-- JavaScript string truthiness for an optional string: `undefined`/absent
and the empty string are falsy. -/
def jsTruthyStr : Option String → Bool
  | none => false
  | some s => !(s == "")

/-- Embedding of `EgressClient.checkRecordingPermission`
(`src/lib/livekit-egress.ts:310-322`).  The participant argument is the
result of `getParticipant`, which returns `null` (here `none`) on any fetch
failure or non-OK response.  The source returns `false` when the participant
or its metadata is falsy, when `JSON.parse` throws, and when the parsed value
lacks `canRecord === true`. -/
def checkRecordingPermission (participant : Option ParticipantInfo) : Bool :=
  match participant with
  | none => false
  | some p =>
    match p.metadata with
    | none => false
    | some m =>
      if m == "" then false
      else
        match jsonParse m with
        | none => false
        | some j => canRecordTrue j

/-! ## LiveKit JWT issue and verify (`src/lib/livekit-jwt.ts`, `src/unnamed/part_000`) -/

/-- Video grant permissions (`VideoGrant` in `src/lib/livekit-jwt.ts`).
Every field is optional in the source interface. -/
structure VideoGrant where
  room : Option String := none
  roomJoin : Option Bool := none
  roomList : Option Bool := none
  roomRecord : Option Bool := none
  roomAdmin : Option Bool := none
  roomCreate : Option Bool := none
  canPublish : Option Bool := none
  canSubscribe : Option Bool := none
  canPublishData : Option Bool := none
  hidden : Option Bool := none
  recorder : Option Bool := none
deriving DecidableEq

/-- Token generation options (`TokenOptions` in `src/lib/livekit-jwt.ts`).
Attribute maps are embedded as association lists. -/
structure TokenOptions where
  identity : String
  name : Option String := none
  metadata : Option String := none
  attributes : Option (List (String × String)) := none
deriving DecidableEq

/-- The JWT claim set built by `generateLiveKitToken`: the video grant, the
standard `sub`/`iss`/`nbf`/`exp` claims, and the optional claims that are
added only when the corresponding option is truthy. -/
structure Claims where
  video : VideoGrant
  sub : String
  iss : String
  nbf : Nat
  exp : Nat
  name : Option String := none
  metadata : Option String := none
  attributes : Option (List (String × String)) := none
deriving DecidableEq

/-- Modelled from the spec: the external `@tsndr/cloudflare-worker-jwt`
library (not part of this repository's sources) signs the claim set with a
symmetric-key message authentication code over the claims, and the same
secret is required to verify.  The MAC is modelled symbolically as the
injective term `mac(secret, message)`, the standard symbolic-cryptography
idealisation of an unforgeable MAC. -/
structure MacTag where
  secret : String
  message : Claims
deriving DecidableEq

/-- Modelled from the spec: a signed credential, carrying the claim set and
the MAC tag over it (the compact JWT serialisation is abstracted away; a
tampered token is one whose claim set no longer matches its tag). -/
structure Jwt where
  payload : Claims
  tag : MacTag
deriving DecidableEq

/-- Modelled from the spec: `jwt.sign(claims, secret)` of the external
library — attach the MAC tag over the claims under the given secret. -/
def jwtSign (claims : Claims) (secret : String) : Jwt :=
  { payload := claims, tag := { secret := secret, message := claims } }

/-- Modelled from the spec: `jwt.verify(token, secret)` of the external
library — the token is valid exactly when its tag is the MAC of its payload
under the verifying secret. -/
def jwtVerify (token : Jwt) (secret : String) : Bool :=
  token.tag == { secret := secret, message := token.payload }

/-- Modelled from the spec: `jwt.decode(token).payload` of the external
library — read the claim set off the token without checking the tag. -/
def jwtDecode (token : Jwt) : Claims :=
  token.payload

/-- The claim object built by `generateLiveKitToken`
(`src/lib/livekit-jwt.ts:54-88`): `video`, `sub`, `iss`, `nbf = now`,
`exp = now + ttlSeconds`, and the optional claims guarded by JavaScript
truthiness (`if (options.name)`, `if (options.metadata)`,
`if (options.attributes)`; an empty string is falsy, any object is truthy). -/
def buildClaims (apiKey : String) (options : TokenOptions) (grant : VideoGrant)
    (now ttlSeconds : Nat) : Claims :=
  { video := grant
    sub := options.identity
    iss := apiKey
    nbf := now
    exp := now + ttlSeconds
    name := if jsTruthyStr options.name then options.name else none
    metadata := if jsTruthyStr options.metadata then options.metadata else none
    attributes := options.attributes }

/-- Embedding of `generateLiveKitToken` (`src/lib/livekit-jwt.ts:54-88`).
`Date.now()` is passed in explicitly as `now` (seconds); the optional
`ttlSeconds` parameter defaults to `5 * 60` as in the source. -/
def generateLiveKitToken (apiKey apiSecret : String) (options : TokenOptions)
    (grant : VideoGrant) (now : Nat) (ttlSeconds : Option Nat) : Jwt :=
  jwtSign (buildClaims apiKey options grant now (ttlSeconds.getD (5 * 60))) apiSecret

/-- Embedding of `verifyLiveKitToken` (`src/unnamed/part_000:131-146`):
verify the token against the secret and return its decoded payload, or
`none` (the source's `null`) when verification fails or decoding throws. -/
def verifyLiveKitToken (token : Jwt) (apiSecret : String) : Option Claims :=
  if jwtVerify token apiSecret then some (jwtDecode token) else none

/-! ## Egress status and info (`src/lib/livekit-egress.ts`) -/

/-- Egress status as it arrives from the API: the source notes it "can be
string or number depending on API version", and `isEgressActive` accepts
both.  Numeric codes follow the `EgressStatus` enum
(`EGRESS_STARTING = 0`, `EGRESS_ACTIVE = 1`, ..., `EGRESS_LIMIT_REACHED = 6`). -/
inductive EgressStatusVal where
  | num (code : Nat) : EgressStatusVal
  | str (s : String) : EgressStatusVal
deriving DecidableEq

/-- Embedding of `isEgressActive` (`src/lib/livekit-egress.ts:37-42`): a
string status is active iff it equals `EGRESS_STARTING` or `EGRESS_ACTIVE`;
otherwise the status is compared with the numeric enum values `0` and `1`. -/
def isEgressActive (status : EgressStatusVal) : Bool :=
  match status with
  | .str s => s == "EGRESS_STARTING" || s == "EGRESS_ACTIVE"
  | .num code => code == 0 || code == 1

/-- A produced file descriptor in an egress result
(`EgressInfo.fileResults` entries in `src/lib/livekit-egress.ts`). -/
structure FileResult where
  filename : String
  duration : Nat
  size : Nat
  location : String
deriving DecidableEq

/-- Egress info as mapped from an API response by `mapEgressInfo`
(`src/lib/livekit-egress.ts`).  `fileResults` is `Option` because the field
may be absent (`undefined`) in the raw response. -/
structure EgressInfo where
  egressId : String
  roomId : String
  roomName : String
  status : EgressStatusVal
  startedAt : Option String := none
  endedAt : Option String := none
  error : Option String := none
  fileResults : Option (List FileResult) := none
deriving DecidableEq

/-! ## Route handlers

Each handler is a pure function of the request parameters, the environment
configuration, the remote results it would receive, and (for start) the
current ISO timestamp.  Its result is the HTTP response together with the
ordered list of outbound LiveKit calls it issues. -/

/-- Outbound calls a route handler can issue against the LiveKit server. -/
inductive RemoteCall where
  | getParticipant (room identity : String) : RemoteCall
  | listEgress (room : String) : RemoteCall
  | startRoomCompositeEgress (room filepath : String) : RemoteCall
  | stopEgress (egressId : String) : RemoteCall
deriving DecidableEq

/-- Remote results the handlers consume: the participant returned by
`GetParticipant` (`none` models a failed or non-OK fetch), the egress list
returned by `ListEgress`, and the per-id result of `StopEgress`. -/
structure RemoteState where
  participant : Option ParticipantInfo
  egresses : List EgressInfo
  stopResult : String → EgressInfo

/-- Response bodies the handlers produce: plain text, or the JSON success
bodies of the start and stop routes. -/
inductive ResponseBody where
  | text (s : String) : ResponseBody
  | startedJson (message filepath : String) : ResponseBody
  | stoppedJson (message : String) (stopped : Nat) (files : List FileResult) : ResponseBody
deriving DecidableEq

/-- An HTTP response: status code and body. -/
structure RouteResponse where
  status : Nat
  body : ResponseBody
deriving DecidableEq

/-- Environment configuration read by the start route
(`process.env` destructuring in `src/app/api/record/start/route.ts`). -/
structure StartEnv where
  livekitApiKey : Option String
  livekitApiSecret : Option String
  livekitUrl : Option String
  s3KeyId : Option String
  s3KeySecret : Option String
  s3Bucket : Option String
  s3Endpoint : Option String
  s3Region : Option String
deriving DecidableEq

/-- Environment configuration read by the stop route (`src/unnamed/part_002`). -/
structure StopEnv where
  livekitApiKey : Option String
  livekitApiSecret : Option String
  livekitUrl : Option String
deriving DecidableEq

/-- Embedding of the timestamp sanitisation in the start route:
`new Date().toISOString().replace(/[:.]/g, '-')` replaces every colon and
dot with a dash. -/
def sanitizeTimestamp (s : String) : String :=
  String.mk (s.data.map (fun c => if c = ':' ∨ c = '.' then '-' else c))

/-- Embedding of the start route handler `GET`
(`src/app/api/record/start/route.ts`).  Checks run in source order: missing
`roomName` (strict `=== null`), falsy `identity`, LiveKit configuration, S3
configuration, recording permission, existing active egress (via
`isEgressActive` over the listed egresses), then the composite egress is
started with `filepath = recordings/<room>/<sanitised timestamp>.mp4`. -/
def recordStartRoute (env : StartEnv) (roomName identity : Option String)
    (remote : RemoteState) (nowIso : String) : RouteResponse × List RemoteCall :=
  match roomName with
  | none => ({ status := 403, body := .text "Missing roomName parameter" }, [])
  | some room =>
    if !jsTruthyStr identity then
      ({ status := 403, body := .text "Missing identity parameter" }, [])
    else if !(jsTruthyStr env.livekitApiKey && jsTruthyStr env.livekitApiSecret
        && jsTruthyStr env.livekitUrl) then
      ({ status := 500, body := .text "LiveKit configuration missing" }, [])
    else if !(jsTruthyStr env.s3KeyId && jsTruthyStr env.s3KeySecret
        && jsTruthyStr env.s3Bucket && jsTruthyStr env.s3Endpoint) then
      ({ status := 500, body := .text "S3 storage configuration missing" }, [])
    else
      let permCall := RemoteCall.getParticipant room (identity.getD "")
      if !checkRecordingPermission remote.participant then
        ({ status := 403, body := .text "Recording permission denied" }, [permCall])
      else
        let listCall := RemoteCall.listEgress room
        match remote.egresses.find? (fun e => isEgressActive e.status) with
        | some _ =>
          ({ status := 409, body := .text "Meeting is already being recorded" },
           [permCall, listCall])
        | none =>
          let filepath := "recordings/" ++ room ++ "/" ++ sanitizeTimestamp nowIso ++ ".mp4"
          ({ status := 200, body := .startedJson "Recording started" filepath },
           [permCall, listCall, RemoteCall.startRoomCompositeEgress room filepath])

/-- The stop route's activity filter
(`src/unnamed/part_002:33-35`): strict `===` comparison of the status with
the numeric enum values `EgressStatus.EGRESS_STARTING` (0) and
`EgressStatus.EGRESS_ACTIVE` (1); a string status is never strictly equal to
a number in JavaScript. -/
def stopRouteActive (info : EgressInfo) : Bool :=
  info.status == .num 0 || info.status == .num 1

/-- Embedding of `results.map((r) => r.fileResults).flat().filter(Boolean)`
in the stop route: absent `fileResults` survive `.flat()` as `undefined` and
are removed by `.filter(Boolean)`; file descriptor objects are truthy. -/
def collectFiles (results : List EgressInfo) : List FileResult :=
  (results.map (fun r => r.fileResults.getD [])).flatten

/-- Embedding of the stop route handler `GET` (`src/unnamed/part_002`).
Checks run in source order: missing `roomName` (strict `=== null`), falsy
`identity`, LiveKit configuration, recording permission; then the listed
egresses are filtered by the route's own numeric activity test, a 404 is
returned when none remain, and otherwise every active egress is stopped and
the response counts them and collects their files. -/
def recordStopRoute (env : StopEnv) (roomName identity : Option String)
    (remote : RemoteState) : RouteResponse × List RemoteCall :=
  match roomName with
  | none => ({ status := 403, body := .text "Missing roomName parameter" }, [])
  | some room =>
    if !jsTruthyStr identity then
      ({ status := 403, body := .text "Missing identity parameter" }, [])
    else if !(jsTruthyStr env.livekitApiKey && jsTruthyStr env.livekitApiSecret
        && jsTruthyStr env.livekitUrl) then
      ({ status := 500, body := .text "LiveKit configuration missing" }, [])
    else
      let permCall := RemoteCall.getParticipant room (identity.getD "")
      if !checkRecordingPermission remote.participant then
        ({ status := 403, body := .text "Recording permission denied" }, [permCall])
      else
        let listCall := RemoteCall.listEgress room
        let actives := remote.egresses.filter stopRouteActive
        if actives.isEmpty then
          ({ status := 404, body := .text "No active recording found" },
           [permCall, listCall])
        else
          let results := actives.map (fun info => remote.stopResult info.egressId)
          ({ status := 200,
             body := .stoppedJson "Recording stopped" results.length (collectFiles results) },
           [permCall, listCall] ++ actives.map (fun info => RemoteCall.stopEgress info.egressId))

/-! ## Optimistic recording-state reconciler (`src/lib/SettingsMenu.tsx`) -/

/-- The displayed recording state: the local override when set, otherwise
the authoritative LiveKit state
(`localRecordingState !== null ? localRecordingState : livekitIsRecording`). -/
def displayedRecording (localOverride : Option Bool) (livekitIsRecording : Bool) : Bool :=
  localOverride.getD livekitIsRecording

/-- The local-override update performed by `toggleRoomRecording`
(`src/lib/SettingsMenu.tsx:87-112`): on a successful response the override
becomes the negation of the currently displayed state
(`setLocalRecordingState(!isRecording)`); on a failed response the override
is left unchanged (only an alert is shown). -/
def applyRecResponse (localOverride : Option Bool) (livekitIsRecording responseOk : Bool) :
    Option Bool :=
  if responseOk then some (!displayedRecording localOverride livekitIsRecording)
  else localOverride

/-- The reconciliation effect (`src/lib/SettingsMenu.tsx:64-70`): the local
override is cleared to `null` exactly when it is set and the authoritative
LiveKit state has caught up to it; otherwise it is left unchanged. -/
def reconcileOverride (localOverride : Option Bool) (livekitIsRecording : Bool) :
    Option Bool :=
  match localOverride with
  | some v => if livekitIsRecording = v then none else some v
  | none => none

/-! ## Concrete fixtures used to evaluate the embedding on sample inputs -/

/-- A fully populated start-route environment. -/
def fullStartEnv : StartEnv :=
  ⟨some "k", some "s", some "wss://lk", some "id", some "sec", some "b", some "e", some "r"⟩

/-- A fully populated stop-route environment. -/
def fullStopEnv : StopEnv :=
  ⟨some "k", some "s", some "wss://lk"⟩

/-- A participant whose metadata is `\x7b"canRecord":true\x7d`. -/
def permittedParticipant : ParticipantInfo :=
  ⟨"sid1", "bob", "Bob", some "\x7b\"canRecord\":true\x7d", 0⟩

/-- A produced recording file. -/
def sampleFile : FileResult :=
  ⟨"recordings/room1/t.mp4", 10, 1000, "s3://b/recordings/room1/t.mp4"⟩

/-- An egress job whose status is the numeric code `EGRESS_ACTIVE = 1`,
carrying one produced file. -/
def activeNumJob : EgressInfo :=
  { egressId := "eg1", roomId := "r1", roomName := "room1", status := .num 1,
    fileResults := some [sampleFile] }

/-- An egress job whose status is the string `EGRESS_ACTIVE`. -/
def activeStrJob : EgressInfo :=
  { egressId := "eg2", roomId := "r1", roomName := "room1",
    status := .str "EGRESS_ACTIVE" }

/-- A remote state with the permitted participant and the given egress
listing; stopping any job reports `activeNumJob`. -/
def remoteWith (egs : List EgressInfo) : RemoteState :=
  { participant := some permittedParticipant, egresses := egs,
    stopResult := fun _ => activeNumJob }

/-! ## Claim theorems -/

/-- Appending distinct middles between a common prefix and suffix yields
distinct strings. -/
theorem string_append_mid_inj (p s a b : String) (h : p ++ a ++ s = p ++ b ++ s) :
    a = b := by
  apply String.ext
  have hd := congrArg String.data h
  simp only [String.data_append] at hd
  exact List.append_cancel_left (List.append_cancel_right hd)

/-- C5: `isEgressActive` returns true for exactly the starting and active
statuses, whether given as the numeric enum values (0 or 1) or as the
strings `EGRESS_STARTING`/`EGRESS_ACTIVE`, and returns false for every
other input. -/
theorem isEgressActive_iff (status : EgressStatusVal) :
    isEgressActive status = true ↔
      status = .num 0 ∨ status = .num 1
        ∨ status = .str "EGRESS_STARTING" ∨ status = .str "EGRESS_ACTIVE" := by
  cases status with
  | num code => simp [isEgressActive]
  | str s => simp [isEgressActive]; try tauto

/-- C5 witness: concrete evaluations of `isEgressActive` through the claim
theorem at each accepted status and at a rejected one. -/
theorem isEgressActive_iff_witness :
    isEgressActive (.num 0) = true ∧ isEgressActive (.str "EGRESS_ACTIVE") = true
      ∧ ¬isEgressActive (.num 3) = true :=
  ⟨(isEgressActive_iff (.num 0)).mpr (Or.inl rfl),
   (isEgressActive_iff (.str "EGRESS_ACTIVE")).mpr (Or.inr (Or.inr (Or.inr rfl))),
   fun h => by cases (isEgressActive_iff (.num 3)).mp h with
     | inl h => exact absurd h (by decide)
     | inr h => cases h with
       | inl h => exact absurd h (by decide)
       | inr h => cases h with
         | inl h => exact absurd h (by simp)
         | inr h => exact absurd h (by simp)⟩

/-- C7: a request to the start or stop endpoint whose `roomName` query
parameter is missing gets status 403 with body `Missing roomName parameter`,
and no permission check or remote call is issued. -/
theorem missing_roomName_403 (env : StartEnv) (stopEnv : StopEnv)
    (identity : Option String) (remote : RemoteState) (nowIso : String) :
    recordStartRoute env none identity remote nowIso =
      ({ status := 403, body := .text "Missing roomName parameter" }, [])
    ∧ recordStopRoute stopEnv none identity remote =
      ({ status := 403, body := .text "Missing roomName parameter" }, []) :=
  ⟨rfl, rfl⟩

/-- C9: in the recording UI reconciler, a successful start/stop response
sets the optimistic override to the negation of the currently displayed
recording state, a failed request leaves the override unchanged, and the
override is cleared back to unset exactly when the authoritative recording
state becomes equal to the override value. -/
theorem recording_reconciler_spec (localOverride : Option Bool) (auth ok : Bool) :
    (ok = true →
      applyRecResponse localOverride auth ok = some (!displayedRecording localOverride auth))
    ∧ (ok = false → applyRecResponse localOverride auth ok = localOverride)
    ∧ (∀ v : Bool, reconcileOverride (some v) auth = none ↔ auth = v)
    ∧ reconcileOverride none auth = none := by
  refine ⟨fun h => ?_, fun h => ?_, fun v => ?_, rfl⟩
  · simp [applyRecResponse, h]
  · simp [applyRecResponse, h]
  · by_cases hv : auth = v <;> simp [reconcileOverride, hv]

/-- C9 witness: a successful stop response while recording is displayed sets
the override to not-recording; once the authoritative state reports
not-recording, the override clears; a failed request leaves it in place. -/
theorem recording_reconciler_spec_witness :
    applyRecResponse (some true) false true = some false
      ∧ reconcileOverride (some false) false = none
      ∧ applyRecResponse (some true) false false = some true :=
  ⟨(recording_reconciler_spec (some true) false true).1 rfl,
   ((recording_reconciler_spec (some false) false false).2.2.1 false).mpr rfl,
   (recording_reconciler_spec (some true) false false).2.1 rfl⟩

/-- C2: `checkRecordingPermission` returns false (and, being a total
function into `Bool`, never throws) whenever the participant lookup fails,
the metadata is absent, the metadata does not parse as JSON, or the parsed
metadata lacks a `canRecord` field equal to `true`. -/
theorem checkRecordingPermission_fail_closed (participant : Option ParticipantInfo) :
    (participant = none
      ∨ ∃ p, participant = some p ∧
        (p.metadata = none
          ∨ ∃ m, p.metadata = some m ∧
            (jsonParse m = none
              ∨ ∃ j, jsonParse m = some j ∧ canRecordTrue j = false))) →
    checkRecordingPermission participant = false := by
  intro h
  rcases h with rfl | ⟨p, rfl, hp⟩
  · rfl
  · rcases hp with hm | ⟨m, hm, hj⟩
    · simp [checkRecordingPermission, hm]
    · rcases hj with hn | ⟨j, hj, hc⟩ <;>
        by_cases hme : m = "" <;>
          simp_all [checkRecordingPermission]

/-- C2 witness: concrete fail-closed evaluations — a failed lookup, a
participant with unparsable metadata, and one whose metadata parses but has
`canRecord` set to `false`. -/
theorem checkRecordingPermission_fail_closed_witness :
    checkRecordingPermission none = false
      ∧ checkRecordingPermission
          (some { sid := "sid1", identity := "bob", name := "Bob",
                  metadata := some "not json", state := 0 }) = false
      ∧ checkRecordingPermission
          (some { sid := "sid1", identity := "bob", name := "Bob",
                  metadata := some "\x7b\"canRecord\":false\x7d", state := 0 }) = false :=
  ⟨checkRecordingPermission_fail_closed none (Or.inl rfl),
   checkRecordingPermission_fail_closed _
     (Or.inr ⟨_, rfl, Or.inr ⟨"not json", rfl, Or.inl rfl⟩⟩),
   checkRecordingPermission_fail_closed _
     (Or.inr ⟨_, rfl, Or.inr ⟨"\x7b\"canRecord\":false\x7d", rfl,
        Or.inr ⟨.obj [("canRecord", .bool false)], rfl, rfl⟩⟩⟩)⟩

/-- C6: the claim set signed by `generateLiveKitToken` consists of the video
grant, `sub` = identity, `iss` = API key, `nbf` = current time, and `exp` =
current time plus the TTL (300 seconds when no TTL is given); `name`,
`metadata` and `attributes` appear only when present in the options. -/
theorem generateLiveKitToken_claims (apiKey apiSecret : String)
    (options : TokenOptions) (grant : VideoGrant) (now : Nat)
    (ttlSeconds : Option Nat) :
    let c := (generateLiveKitToken apiKey apiSecret options grant now ttlSeconds).payload
    c.video = grant ∧ c.sub = options.identity ∧ c.iss = apiKey ∧ c.nbf = now
      ∧ c.exp = now + ttlSeconds.getD (5 * 60)
      ∧ (ttlSeconds = none → c.exp = now + 300)
      ∧ (∀ v, c.name = some v → options.name = some v)
      ∧ (∀ v, c.metadata = some v → options.metadata = some v)
      ∧ c.attributes = options.attributes := by
  refine ⟨rfl, rfl, rfl, rfl, rfl, fun h => by subst h; rfl, fun v hv => ?_, fun v hv => ?_, rfl⟩
  · by_cases h : jsTruthyStr options.name = true <;>
      simp_all [generateLiveKitToken, jwtSign, buildClaims]
  · by_cases h : jsTruthyStr options.metadata = true <;>
      simp_all [generateLiveKitToken, jwtSign, buildClaims]

/-- C6 witness: a token issued without a TTL expires 300 seconds after
issuance, and an included `name` claim comes from the options. -/
theorem generateLiveKitToken_claims_witness :
    (generateLiveKitToken "key" "secret" { identity := "alice" } {} 100 none).payload.exp
        = 100 + 300
      ∧ ((some "Alice" : Option String) = some "Alice") :=
  ⟨(generateLiveKitToken_claims "key" "secret" { identity := "alice" } {} 100 none).2.2.2.2.2.1 rfl,
   (generateLiveKitToken_claims "key" "secret" { identity := "alice", name := some "Alice" }
      {} 100 none).2.2.2.2.2.2.1 "Alice" rfl⟩

/-- C1 counterexample: issuing a token with the optional `name` present but
equal to the empty string (a falsy value in JavaScript, so the claim is
dropped) and verifying it with the same secret succeeds but yields no `name`
claim, so decoding does not recover the original optional field. -/
theorem token_roundtrip_empty_name_cex :
    (verifyLiveKitToken
        (generateLiveKitToken "api-key" "api-secret"
          { identity := "alice", name := some "" } {} 1000 none)
        "api-secret").map Claims.name = some none
      ∧ (some none : Option (Option String)) ≠ some (some "") := by
  exact ⟨rfl, by decide⟩

/-- C1 (amended): provided every optional string field is either absent or
nonempty, verifying a token produced by `generateLiveKitToken` with the same
secret succeeds and decoding recovers the original subject, grant, and
optional fields, while verification with a different secret, or of a token
whose claim set was altered in any way, fails (returns `none`). -/
theorem token_roundtrip_and_tamper (apiKey apiSecret : String)
    (options : TokenOptions) (grant : VideoGrant) (now : Nat)
    (ttlSeconds : Option Nat)
    (hname : options.name ≠ some "") (hmeta : options.metadata ≠ some "") :
    let tok := generateLiveKitToken apiKey apiSecret options grant now ttlSeconds
    (∃ c, verifyLiveKitToken tok apiSecret = some c
        ∧ c.sub = options.identity ∧ c.video = grant
        ∧ c.name = options.name ∧ c.metadata = options.metadata
        ∧ c.attributes = options.attributes)
    ∧ (∀ otherSecret, otherSecret ≠ apiSecret → verifyLiveKitToken tok otherSecret = none)
    ∧ (∀ altered : Claims, altered ≠ tok.payload →
        verifyLiveKitToken { payload := altered, tag := tok.tag } apiSecret = none) := by
  refine ⟨⟨(generateLiveKitToken apiKey apiSecret options grant now ttlSeconds).payload,
      ?_, rfl, rfl, ?_, ?_, rfl⟩, fun otherSecret hs => ?_, fun altered ha => ?_⟩
  · simp [verifyLiveKitToken, jwtVerify, jwtDecode, generateLiveKitToken, jwtSign]
  · cases hn : options.name with
    | none => simp [generateLiveKitToken, jwtSign, buildClaims, jsTruthyStr, hn]
    | some s =>
      have hs : s ≠ "" := fun h => hname (h ▸ hn)
      simp [generateLiveKitToken, jwtSign, buildClaims, jsTruthyStr, hn, hs]
  · cases hn : options.metadata with
    | none => simp [generateLiveKitToken, jwtSign, buildClaims, jsTruthyStr, hn]
    | some s =>
      have hs : s ≠ "" := fun h => hmeta (h ▸ hn)
      simp [generateLiveKitToken, jwtSign, buildClaims, jsTruthyStr, hn, hs]
  · simp [verifyLiveKitToken, jwtVerify, generateLiveKitToken, jwtSign]
    intro h
    exact absurd h.symm hs
  · simp [verifyLiveKitToken, jwtVerify, generateLiveKitToken, jwtSign] at ha ⊢
    intro h
    exact ha h.symm

/-- C1 witness: a concrete token with nonempty optional fields round-trips
through verification, fails under a different secret, and fails with an
altered subject claim. -/
theorem token_roundtrip_and_tamper_witness :
    ((some "Alice" : Option String) ≠ some "") ∧
    ∃ c, verifyLiveKitToken
        (generateLiveKitToken "api-key" "api-secret"
          { identity := "alice", name := some "Alice" }
          { roomJoin := some true } 1000 (some 60))
        "api-secret" = some c ∧ c.sub = "alice" := by
  have h := token_roundtrip_and_tamper "api-key" "api-secret"
    { identity := "alice", name := some "Alice" } { roomJoin := some true }
    1000 (some 60) (by decide) (by decide)
  obtain ⟨⟨c, hc, hsub, -⟩, -, -⟩ := h
  exact ⟨by decide, c, hc, hsub⟩

/-- C3: when some job listed for the room is already active, the start
endpoint — once the request passes the parameter, configuration and
permission checks that precede the conflict check — responds 409, and (on
any request at all with such a listing) never issues a
`StartRoomCompositeEgress` call. -/
theorem start_conflict_409_no_second_job (env : StartEnv) (room : String)
    (identity : Option String) (remote : RemoteState) (nowIso : String)
    (hactive : ∃ e ∈ remote.egresses, isEgressActive e.status = true) :
    (jsTruthyStr identity = true →
     jsTruthyStr env.livekitApiKey = true → jsTruthyStr env.livekitApiSecret = true →
     jsTruthyStr env.livekitUrl = true →
     jsTruthyStr env.s3KeyId = true → jsTruthyStr env.s3KeySecret = true →
     jsTruthyStr env.s3Bucket = true → jsTruthyStr env.s3Endpoint = true →
     checkRecordingPermission remote.participant = true →
     (recordStartRoute env (some room) identity remote nowIso).fst =
       { status := 409, body := .text "Meeting is already being recorded" })
    ∧ (∀ r f, RemoteCall.startRoomCompositeEgress r f ∉
        (recordStartRoute env (some room) identity remote nowIso).snd) := by
  have hfind : (remote.egresses.find? (fun e => isEgressActive e.status)).isSome :=
    List.find?_isSome.mpr hactive
  obtain ⟨e0, he0⟩ := Option.isSome_iff_exists.mp hfind
  refine ⟨fun h1 h2 h3 h4 h5 h6 h7 h8 h9 => ?_, fun r f => ?_⟩
  · simp [recordStartRoute, h1, h2, h3, h4, h5, h6, h7, h8, h9, he0]
  · simp only [recordStartRoute]
    repeat' split <;> simp_all

/-- C3 witness: with full configuration, a permitted identity and one active
listed job, the start route returns 409 and issues no start call. -/
theorem start_conflict_409_no_second_job_witness :
    (recordStartRoute fullStartEnv (some "room1") (some "bob")
        (remoteWith [activeNumJob]) "2026-10-11T00:00:00.000Z").fst =
      { status := 409, body := .text "Meeting is already being recorded" }
    ∧ RemoteCall.startRoomCompositeEgress "room1"
        "recordings/room1/2026-10-11T00-00-00-000Z.mp4" ∉
      (recordStartRoute fullStartEnv (some "room1") (some "bob")
        (remoteWith [activeNumJob]) "2026-10-11T00:00:00.000Z").snd := by
  have h := start_conflict_409_no_second_job fullStartEnv "room1" (some "bob")
    (remoteWith [activeNumJob]) "2026-10-11T00:00:00.000Z"
    ⟨activeNumJob, by simp [remoteWith], rfl⟩
  exact ⟨h.1 rfl rfl rfl rfl rfl rfl rfl rfl rfl, h.2 _ _⟩

/-- C4 counterexample: a listed job whose status is the string
`EGRESS_ACTIVE` is active in the string representation (`isEgressActive`
accepts it), yet the stop route's strict numeric comparison misses it: the
route returns 404 `No active recording found` and issues no stop call,
where the claim requires a 200 response and a stop call for that job. -/
theorem stop_string_status_missed_cex :
    isEgressActive (.str "EGRESS_ACTIVE") = true
    ∧ recordStopRoute fullStopEnv (some "room1") (some "bob")
        (remoteWith [activeStrJob]) =
      ({ status := 404, body := .text "No active recording found" },
       [.getParticipant "room1" "bob", .listEgress "room1"]) :=
  ⟨rfl, rfl⟩

/-- C4 (amended): on the stop endpoint a job counts as active only when its
status is the numeric code 0 (`EGRESS_STARTING`) or 1 (`EGRESS_ACTIVE`) —
string statuses are not recognised by the route's strict comparison.  With
that notion of active: when no listed job is active the route returns 404
`No active recording found` and issues no stop call; otherwise it issues a
stop call for every active job and returns 200 with the number stopped and
their files. -/
theorem stop_route_spec (env : StopEnv) (room : String)
    (identity : Option String) (remote : RemoteState)
    (hid : jsTruthyStr identity = true)
    (h2 : jsTruthyStr env.livekitApiKey = true)
    (h3 : jsTruthyStr env.livekitApiSecret = true)
    (h4 : jsTruthyStr env.livekitUrl = true)
    (hperm : checkRecordingPermission remote.participant = true) :
    let actives := remote.egresses.filter stopRouteActive
    let out := recordStopRoute env (some room) identity remote
    (∀ e : EgressInfo, stopRouteActive e = true ↔
        e.status = .num 0 ∨ e.status = .num 1)
    ∧ (actives = [] →
        out.fst = { status := 404, body := .text "No active recording found" }
        ∧ ∀ eid, RemoteCall.stopEgress eid ∉ out.snd)
    ∧ (actives ≠ [] →
        out.fst =
          { status := 200,
            body := .stoppedJson "Recording stopped" actives.length
              (collectFiles (actives.map (fun info => remote.stopResult info.egressId))) }
        ∧ ∀ e ∈ actives, RemoteCall.stopEgress e.egressId ∈ out.snd) := by
  refine ⟨fun e => ?_, fun hemp => ?_, fun hne => ?_⟩
  · simp [stopRouteActive]
  · constructor
    · simp [recordStopRoute, hid, h2, h3, h4, hperm, hemp]
    · intro eid
      simp [recordStopRoute, hid, h2, h3, h4, hperm, hemp]
  · have hne' : (remote.egresses.filter stopRouteActive).isEmpty = false := by
      simpa [List.isEmpty_iff] using hne
    constructor
    · simp [recordStopRoute, hid, h2, h3, h4, hperm, hne', List.length_map]
    · intro e he
      simp only [recordStopRoute, hid, h2, h3, h4, hperm, hne']
      simp only [Bool.not_true, Bool.and_self, if_false, List.mem_append, List.mem_cons]
      right
      right
      exact List.mem_map.mpr ⟨e, he, rfl⟩

/-- C4 witness: with one numerically active listed job the stop route stops
it and reports its file; with none it returns 404 without stop calls. -/
theorem stop_route_spec_witness :
    (recordStopRoute fullStopEnv (some "room1") (some "bob")
        (remoteWith [activeNumJob])).fst =
      { status := 200, body := .stoppedJson "Recording stopped" 1 [sampleFile] }
    ∧ RemoteCall.stopEgress "eg1" ∈
        (recordStopRoute fullStopEnv (some "room1") (some "bob")
          (remoteWith [activeNumJob])).snd
    ∧ (recordStopRoute fullStopEnv (some "room1") (some "bob")
        (remoteWith [])).fst =
      { status := 404, body := .text "No active recording found" } := by
  have h1 := stop_route_spec fullStopEnv "room1" (some "bob")
    (remoteWith [activeNumJob]) rfl rfl rfl rfl rfl
  have h2 := stop_route_spec fullStopEnv "room1" (some "bob")
    (remoteWith []) rfl rfl rfl rfl rfl
  refine ⟨?_, ?_, (h2.2.1 rfl).1⟩
  · exact (h1.2.2 (by decide)).1
  · exact (h1.2.2 (by decide)).2 activeNumJob (by decide)

/-- C8: a start request by a permitted identity (metadata parsing to
`canRecord: true`), with full platform and storage configuration and no
active listed job, gets a 200 response whose filepath is
`recordings/<room>/<sanitised timestamp>.mp4`; the path is a deterministic
function of the room name and timestamp, and distinct sanitised timestamps
give distinct paths. -/
theorem start_success_filepath (env : StartEnv) (room : String)
    (identity : Option String) (remote : RemoteState) (nowIso : String)
    (hid : jsTruthyStr identity = true)
    (h2 : jsTruthyStr env.livekitApiKey = true)
    (h3 : jsTruthyStr env.livekitApiSecret = true)
    (h4 : jsTruthyStr env.livekitUrl = true)
    (h5 : jsTruthyStr env.s3KeyId = true)
    (h6 : jsTruthyStr env.s3KeySecret = true)
    (h7 : jsTruthyStr env.s3Bucket = true)
    (h8 : jsTruthyStr env.s3Endpoint = true)
    (p : ParticipantInfo) (meta : String) (j : Json)
    (hp : remote.participant = some p) (hm : p.metadata = some meta)
    (hj : jsonParse meta = some j) (hc : canRecordTrue j = true)
    (hnoactive : ∀ e ∈ remote.egresses, isEgressActive e.status = false) :
    recordStartRoute env (some room) identity remote nowIso =
      ({ status := 200,
         body := .startedJson "Recording started"
           ("recordings/" ++ room ++ "/" ++ sanitizeTimestamp nowIso ++ ".mp4") },
       [.getParticipant room (identity.getD ""), .listEgress room,
        .startRoomCompositeEgress room
          ("recordings/" ++ room ++ "/" ++ sanitizeTimestamp nowIso ++ ".mp4")])
    ∧ ∀ t1 t2 : String, sanitizeTimestamp t1 ≠ sanitizeTimestamp t2 →
        ("recordings/" ++ room ++ "/" ++ sanitizeTimestamp t1 ++ ".mp4" : String) ≠
          "recordings/" ++ room ++ "/" ++ sanitizeTimestamp t2 ++ ".mp4" := by
  have hmeme : meta ≠ "" := by
    intro h
    subst h
    exact Option.noConfusion (show (none : Option Json) = some j from hj)
  have hperm : checkRecordingPermission remote.participant = true := by
    simp [checkRecordingPermission, hp, hm, hj, hc, hmeme]
  have hfind : remote.egresses.find? (fun e => isEgressActive e.status) = none :=
    List.find?_eq_none.mpr (fun e he => by simp [hnoactive e he])
  constructor
  · simp [recordStartRoute, hid, h2, h3, h4, h5, h6, h7, h8, hperm, hfind]
  · intro t1 t2 hts heq
    exact hts (string_append_mid_inj ("recordings/" ++ room ++ "/") ".mp4" _ _ heq)

/-- C8 witness: a concrete permitted start request with an empty egress
listing produces a 200 response with the expected namespaced filepath, and
two distinct timestamps give distinct filepaths. -/
theorem start_success_filepath_witness :
    recordStartRoute fullStartEnv (some "room1") (some "bob") (remoteWith [])
        "2026-10-11T00:00:00.000Z" =
      ({ status := 200,
         body := .startedJson "Recording started"
           "recordings/room1/2026-10-11T00-00-00-000Z.mp4" },
       [.getParticipant "room1" "bob", .listEgress "room1",
        .startRoomCompositeEgress "room1"
          "recordings/room1/2026-10-11T00-00-00-000Z.mp4"])
    ∧ ("recordings/room1/" ++ sanitizeTimestamp "2026-10-11T00:00:00.000Z" ++ ".mp4" : String) ≠
        "recordings/room1/" ++ sanitizeTimestamp "2026-10-11T00:00:01.000Z" ++ ".mp4" := by
  have h := start_success_filepath fullStartEnv "room1" (some "bob") (remoteWith [])
    "2026-10-11T00:00:00.000Z" rfl rfl rfl rfl rfl rfl rfl rfl
    permittedParticipant "\x7b\"canRecord\":true\x7d" (.obj [("canRecord", .bool true)])
    rfl rfl rfl rfl (fun e he => absurd he (by simp [remoteWith]))
  refine ⟨?_, ?_⟩
  · exact h.1
  · have := h.2 "2026-10-11T00:00:00.000Z" "2026-10-11T00:00:01.000Z" (by decide)
    simpa using this

/-- C10: on both endpoints a `roomName` parameter that is present but empty
passes the missing-parameter check (only a wholly absent `roomName` yields
the 403 `Missing roomName parameter` response) and processing continues with
the empty room name, whereas an `identity` parameter that is present but
empty is rejected with 403 `Missing identity parameter`. -/
theorem empty_roomName_passes_check (env : StartEnv) (stopEnv : StopEnv)
    (identity : Option String) (remote : RemoteState) (nowIso : String) :
    (jsTruthyStr identity = true →
      (recordStartRoute env (some "") identity remote nowIso).fst.body ≠
          .text "Missing roomName parameter"
      ∧ (recordStopRoute stopEnv (some "") identity remote).fst.body ≠
          .text "Missing roomName parameter")
    ∧ (jsTruthyStr identity = true →
       jsTruthyStr env.livekitApiKey = true → jsTruthyStr env.livekitApiSecret = true →
       jsTruthyStr env.livekitUrl = true →
       jsTruthyStr env.s3KeyId = true → jsTruthyStr env.s3KeySecret = true →
       jsTruthyStr env.s3Bucket = true → jsTruthyStr env.s3Endpoint = true →
       (recordStartRoute env (some "") identity remote nowIso).snd.head? =
         some (.getParticipant "" (identity.getD "")))
    ∧ recordStartRoute env (some "") (some "") remote nowIso =
        ({ status := 403, body := .text "Missing identity parameter" }, [])
    ∧ recordStopRoute stopEnv (some "") (some "") remote =
        ({ status := 403, body := .text "Missing identity parameter" }, []) := by
  refine ⟨fun hid => ⟨?_, ?_⟩, fun hid h2 h3 h4 h5 h6 h7 h8 => ?_, rfl, rfl⟩
  · simp only [recordStartRoute]
    repeat' split <;> simp_all
  · simp only [recordStopRoute]
    repeat' split <;> simp_all
  · simp only [recordStartRoute, hid, h2, h3, h4, h5, h6, h7, h8]
    by_cases hperm : checkRecordingPermission remote.participant = true
    · simp only [hperm]
      cases hfind : remote.egresses.find? (fun e => isEgressActive e.status) <;>
        simp [hfind]
    · simp [Bool.not_eq_true] at hperm
      simp [hperm]

/-- C10 witness: concrete evaluations — with an empty room name and a valid
identity the start route proceeds to the participant lookup for room `""`,
and an empty identity is rejected on both endpoints. -/
theorem empty_roomName_passes_check_witness :
    (recordStartRoute fullStartEnv (some "") (some "bob") (remoteWith [])
        "t").snd.head? = some (.getParticipant "" "bob")
    ∧ recordStartRoute fullStartEnv (some "") (some "") (remoteWith []) "t" =
        ({ status := 403, body := .text "Missing identity parameter" }, []) := by
  have h := empty_roomName_passes_check fullStartEnv fullStopEnv (some "bob")
    (remoteWith []) "t"
  exact ⟨h.2.1 rfl rfl rfl rfl rfl rfl rfl rfl,
    (empty_roomName_passes_check fullStartEnv fullStopEnv (some "x")
      (remoteWith []) "t").2.2.1⟩

end Meet
